import Mathlib

/-!
Verification of the storage layer of the LSHash repository
(`lshash/storage.py`): a shallow embedding of the module's three backend
classes (`InMemoryStorage`, `RedisStorage`, `ElasticSearchStorage`), the
`storage` factory function, and the external stores they talk to
(a Redis database holding sets of JSON strings, an Elasticsearch index
holding documents), together with theorems settling the frozen claims.

Python values that flow through this module are modelled by `PyVal`,
Python exceptions by `PyErr`, and JSON documents by `JVal`.  Fallible
Python code is modelled with `Except PyErr`.
-/

set_option autoImplicit false

namespace LSHash

/-- Python values handled by the storage layer: strings, integers,
booleans, `None`, tuples and lists.  Payload tuples, their nested
tuples and the lists produced by `json.loads` are all `PyVal`s. -/
inductive PyVal where
  | str : String → PyVal
  | int : Int → PyVal
  | bool : Bool → PyVal
  | none : PyVal
  | tuple : List PyVal → PyVal
  | list : List PyVal → PyVal
deriving Repr

/-- Python exceptions that the storage module can raise at the places the
claims exercise. -/
inductive PyErr where
  | nameError : PyErr
  | typeError : PyErr
  | indexError : PyErr
  | valueError : PyErr
  | importError : PyErr
  | notImplementedError : PyErr
deriving DecidableEq, Repr

/-- JSON values: the result of `json.dumps` (identified with the JSON text
it prints, since printing is injective on this type) and the input of
`json.loads`. -/
inductive JVal where
  | str : String → JVal
  | int : Int → JVal
  | bool : Bool → JVal
  | null : JVal
  | arr : List JVal → JVal
deriving Repr

mutual
/-- Model of `json.dumps` on the values the layer stores: a Python tuple
and a Python list both serialize to a JSON array (this is the
list/tuple ambiguity the spec discusses), scalars to themselves. -/
def jsonDumps : PyVal → JVal
  | .str s => .str s
  | .int n => .int n
  | .bool b => .bool b
  | .none => .null
  | .tuple xs => .arr (jsonDumpsList xs)
  | .list xs => .arr (jsonDumpsList xs)

/-- Serialization of a list of Python values, elementwise. -/
def jsonDumpsList : List PyVal → List JVal
  | [] => []
  | x :: xs => jsonDumps x :: jsonDumpsList xs
end

mutual
/-- Model of `json.loads`: a JSON array decodes to a Python *list*
(never a tuple), scalars to themselves. -/
def jsonLoads : JVal → PyVal
  | .str s => .str s
  | .int n => .int n
  | .bool b => .bool b
  | .null => .none
  | .arr xs => .list (jsonLoadsList xs)

/-- Deserialization of a list of JSON values, elementwise. -/
def jsonLoadsList : List JVal → List PyVal
  | [] => []
  | x :: xs => jsonLoads x :: jsonLoadsList xs
end

mutual
/-- Structural equality of JSON values, as a boolean.  Two `JVal`s are
equal exactly when their printed JSON texts are equal, so this models
the string equality by which a Redis set deduplicates its members. -/
def JVal.beq : JVal → JVal → Bool
  | .str a, .str b => a == b
  | .int a, .int b => a == b
  | .bool a, .bool b => a == b
  | .null, .null => true
  | .arr a, .arr b => JVal.beqList a b
  | _, _ => false

/-- Elementwise boolean equality of lists of JSON values. -/
def JVal.beqList : List JVal → List JVal → Bool
  | [], [] => true
  | a :: as, b :: bs => JVal.beq a b && JVal.beqList as bs
  | _, _ => false
end

mutual
/-- Structural equality of Python values, as a boolean: models Python
`==` on the values the layer stores (note that in Python a tuple and a
list are never `==`, matching the constructor check here). -/
def PyVal.beq : PyVal → PyVal → Bool
  | .str a, .str b => a == b
  | .int a, .int b => a == b
  | .bool a, .bool b => a == b
  | .none, .none => true
  | .tuple a, .tuple b => PyVal.beqList a b
  | .list a, .list b => PyVal.beqList a b
  | _, _ => false

/-- Elementwise boolean equality of lists of Python values. -/
def PyVal.beqList : List PyVal → List PyVal → Bool
  | [], [] => true
  | a :: as, b :: bs => PyVal.beq a b && PyVal.beqList as bs
  | _, _ => false
end

/-- Sequential fallible map, modelling a Python loop or comprehension
that applies a fallible operation to each element in order and raises at
the first failure. -/
def mapExcept {α β : Type} (f : α → Except PyErr β) : List α → Except PyErr (List β)
  | [] => .ok []
  | x :: xs => do
    let y ← f x
    let ys ← mapExcept f xs
    .ok (y :: ys)

/-- Truthiness of a Python value (`bool(v)`), used by the `if extra and ...`
test in `ElasticSearchStorage.get_list`. -/
def pyTruthy : PyVal → Bool
  | .bool b => b
  | .int n => n != 0
  | .str s => !s.isEmpty
  | .none => false
  | .tuple xs => !xs.isEmpty
  | .list xs => !xs.isEmpty

/-! ## InMemoryStorage (storage.py lines 63-76)

The class as written is internally inconsistent.  Its `__init__` is
`def __init__(self)` — it accepts no configuration argument — and binds
`self.storage = []` (an empty Python list).  Every method body then
subscripts `self.storage` with the bare name `index`; the module
`storage.py` binds no global (or builtin) name `index` — the only `index`
in the file is the local parameter of the `storage` factory function —
so evaluating any method body raises `NameError` at the `index` lookup
before anything else happens.  The faithful model below therefore returns
that error from every method.  (`bulk` is not overridden, so it reaches
`BaseStorage.bulk`, whose body is just `raise NotImplementedError` and
mentions no `index`.) -/

/-- State of an `InMemoryStorage` instance: `__init__` sets `self.name`
and `self.storage = []`; no method ever successfully writes to
`self.storage`, so the (always empty) list is not tracked. -/
structure InMemoryStorage where
  name : String

/-- Model of `InMemoryStorage.__init__` called with no argument. -/
def InMemoryStorage.init : InMemoryStorage := ⟨"dict"⟩

/-- Model of `InMemoryStorage.keys` (line 69): evaluating
`self.storage[index]` raises `NameError` because `index` is unbound. -/
def InMemoryStorage.keys (_self : InMemoryStorage) : Except PyErr (List String) :=
  .error .nameError

/-- Model of `InMemoryStorage.append_val` (lines 71-73): line 72
`self.storage[index] = dict()` evaluates the bare name `index`, which is
unbound, so the call raises `NameError` (the rest of the body is
unreachable). -/
def InMemoryStorage.append_val (_self : InMemoryStorage) (_key : String)
    (_val : PyVal) : Except PyErr InMemoryStorage :=
  .error .nameError

/-- Model of `InMemoryStorage.get_list` (lines 75-76): evaluating
`self.storage[index]` raises `NameError` because `index` is unbound. -/
def InMemoryStorage.get_list (_self : InMemoryStorage) (_key : String) :
    Except PyErr (List PyVal) :=
  .error .nameError

/-- Model of `bulk` on an `InMemoryStorage` instance: the class does not
override it, so the call reaches `BaseStorage.bulk` (lines 59-60), which
raises `NotImplementedError`. -/
def InMemoryStorage.bulk (_self : InMemoryStorage) (_data : List PyVal) :
    Except PyErr Unit :=
  .error .notImplementedError

/-- Python `dict.setdefault(key, set()).update([val])` on a dict of sets,
modelled on an association list: insert `val` into the set at `key`,
creating the entry if absent.  Membership uses Python `==`
(`PyVal.beq`). -/
def setdefaultUpdate : List (String × List PyVal) → String → PyVal →
    List (String × List PyVal)
  | [], k, v => [(k, [v])]
  | (k', vs) :: rest, k, v =>
    if k' = k then
      (k', if vs.any (fun w => PyVal.beq w v) then vs else vs ++ [v]) :: rest
    else (k', vs) :: setdefaultUpdate rest k v

/-- The table dictionary (HashKey → set of payloads) that
`InMemoryStorage` evidently intends to keep at `self.storage[index]`.
This model grants the class its two name/subscript slips — it reads the
bare `index` as the instance's table index and lets `self.storage`
support item assignment there (in the source `self.storage` is the empty
list `[]`, so the subscript could never succeed) — in order to exhibit
the behaviour of lines 72-73 that survives those grants: line 72
`self.storage[index] = dict()` still replaces the whole table with a
fresh empty dict on every `append_val` call before line 73 inserts the
new value. -/
structure InMemoryTable where
  table : List (String × List PyVal)

/-- A freshly created table: no bucket holds any payload. -/
def InMemoryTable.empty : InMemoryTable := ⟨[]⟩

/-- Lines 72-73 under the grants described at `InMemoryTable`: the table
is replaced by `dict()` (line 72) and then `setdefault(key, set()).update([val])`
runs on that fresh empty dict (line 73). -/
def InMemoryTable.append_val (_self : InMemoryTable) (key : String)
    (val : PyVal) : InMemoryTable :=
  ⟨setdefaultUpdate [] key val⟩

/-- Line 76, `list(self.storage[index].get(key, []))`, under the grants
described at `InMemoryTable`. -/
def InMemoryTable.get_list (self : InMemoryTable) (key : String) : List PyVal :=
  match self.table.lookup key with
  | some vs => vs
  | none => []

/-! ## RedisStorage (storage.py lines 79-106)

The external Redis database is modelled by `RedisDB`: a map from physical
key to the set of members of the Redis set stored there.  Members are the
JSON texts produced by `json.dumps`, represented by the `JVal` they print
(printing is injective on `JVal`, so Redis's deduplication by string
equality is deduplication by `JVal.beq`).  `SADD` and `SMEMBERS` are the
Redis commands the source issues; `KEYS pattern` performs glob matching,
of which the model implements literal characters and `*` — the only
constructs the source's patterns (`h_index + pattern` with the default
pattern `*`) use in the claims. -/

/-- State of the external Redis database: physical key → members of the
set stored at that key (duplicates never occur; `saddList` preserves
that). -/
structure RedisDB where
  data : List (String × List JVal)

/-- A Redis database with no keys. -/
def RedisDB.empty : RedisDB := ⟨[]⟩

/-- The `SADD` command on the underlying association list: add `v` to the
set at `k` unless an equal member is already present; create the key if
absent. -/
def saddList : List (String × List JVal) → String → JVal →
    List (String × List JVal)
  | [], k, v => [(k, [v])]
  | (k', vs) :: rest, k, v =>
    if k' = k then
      (k', if vs.any (fun w => JVal.beq w v) then vs else vs ++ [v]) :: rest
    else (k', vs) :: saddList rest k v

/-- The `SADD` command. -/
def RedisDB.sadd (db : RedisDB) (k : String) (v : JVal) : RedisDB :=
  ⟨saddList db.data k v⟩

/-- The `SMEMBERS` command: all members of the set at `k`, the empty set
if the key is absent. -/
def RedisDB.smembers (db : RedisDB) (k : String) : List JVal :=
  match db.data.lookup k with
  | some vs => vs
  | none => []

/-- Glob matching as performed by the Redis `KEYS` command, for patterns
built from literal characters and `*` (the source only ever passes
`self.h_index + pattern`, and the claims use the default pattern `*`):
`*` matches any number of characters, a literal matches itself. -/
def globMatch : List Char → List Char → Bool
  | [], s => s.isEmpty
  | '*' :: ps, s => (List.range (s.length + 1)).any (fun n => globMatch ps (s.drop n))
  | p :: ps, s =>
    match s with
    | [] => false
    | c :: s' => p == c && globMatch ps s'

/-- The `KEYS` command: every stored physical key matching the glob
`pattern`. -/
def RedisDB.keysCmd (db : RedisDB) (pattern : String) : List String :=
  (db.data.map Prod.fst).filter (fun k => globMatch pattern.data k.data)

/-- Zero-pad a digit string to at least two characters. -/
def zeroPad2 (s : String) : String :=
  if s.length < 2 then "0" ++ s else s

/-- The Python format expression `'h%.2i.' % int(h_index)` (line 84):
the table index printed with at least two digits, zero-padded, between
`h` and `.`. -/
def mkHIndex (h_index : Int) : String :=
  if h_index < 0 then "h-" ++ zeroPad2 (toString h_index.natAbs) ++ "."
  else "h" ++ zeroPad2 (toString h_index.toNat) ++ "."

/-- State of a `RedisStorage` instance: the namespace string computed by
`__init__` (line 84).  The `config` mapping is forwarded verbatim to the
external `redis.StrictRedis` client constructor and influences nothing
this layer stores, so it is not part of the state. -/
structure RedisStorage where
  h_index : String

/-- Model of `RedisStorage.__init__` (lines 80-84): raises `ImportError`
when the redis client library is unavailable (`if not redis`), otherwise
computes the namespace string. -/
def RedisStorage.init (redisAvailable : Bool) (h_index : Int) :
    Except PyErr RedisStorage :=
  if redisAvailable then .ok ⟨mkHIndex h_index⟩ else .error .importError

/-- Model of `RedisStorage._list` (lines 86-87): the namespaced physical
key. -/
def RedisStorage._list (self : RedisStorage) (key : String) : String :=
  self.h_index ++ key

/-- Model of `RedisStorage.append_val` (lines 95-96):
`self.storage.sadd(self._list(key), json.dumps(val))`. -/
def RedisStorage.append_val (self : RedisStorage) (db : RedisDB)
    (key : String) (val : PyVal) : RedisDB :=
  db.sadd (self._list key) (jsonDumps val)

/-- Body of the repair loop in `RedisStorage.get_list` (lines 101-103)
applied to one decoded element: `if len(el) == 2 and type(el[0]) == list:
el[0] = tuple(el[0])`.  `len` of a decoded scalar (int, bool, None)
raises `TypeError`; item assignment into a tuple would also raise
`TypeError` (unreachable: `json.loads` never yields a tuple). -/
def redisRepair : PyVal → Except PyErr PyVal
  | .list [PyVal.list ys, b] => .ok (.list [.tuple ys, b])
  | .list xs => .ok (.list xs)
  | .tuple [PyVal.list _, _] => .error .typeError
  | .tuple xs => .ok (.tuple xs)
  | .str s => .ok (.str s)
  | _ => .error .typeError

/-- Python `tuple(el)` (line 104): a list or tuple becomes a tuple of the
same elements, a string becomes a tuple of its one-character strings, a
scalar raises `TypeError`. -/
def pyTupleOf : PyVal → Except PyErr PyVal
  | .list xs => .ok (.tuple xs)
  | .tuple xs => .ok (.tuple xs)
  | .str s => .ok (.tuple (s.data.map (fun c => PyVal.str (String.mk [c]))))
  | _ => .error .typeError

/-- Model of `RedisStorage.get_list` (lines 98-106): fetch the members of
the namespaced set, `json.loads` each, run the repair loop, then convert
every element to a tuple. -/
def RedisStorage.get_list (self : RedisStorage) (db : RedisDB)
    (key : String) : Except PyErr (List PyVal) := do
  let decoded := (db.smembers (self._list key)).map jsonLoads
  let repaired ← mapExcept redisRepair decoded
  mapExcept pyTupleOf repaired

/-- Python `str.split('.')` on a character list. -/
def splitDot : List Char → List (List Char)
  | [] => [[]]
  | c :: rest =>
    match splitDot rest with
    | [] => [[]]
    | g :: gs => if c = '.' then [] :: g :: gs else (c :: g) :: gs

/-- Python `k.decode('ascii').split('.')[1]` (line 93): split on every
`.` and take the second piece; raises `IndexError` when the key contains
no `.` at all. -/
def pySplitDotIdx1 (s : String) : Except PyErr String :=
  match (splitDot s.data).get? 1 with
  | some seg => .ok (String.mk seg)
  | none => .error .indexError

/-- Model of `RedisStorage.keys` (lines 91-93): list the physical keys
matching `self.h_index + pattern`, then map each through
`k.decode('ascii').split('.')[1]`. -/
def RedisStorage.keys (self : RedisStorage) (db : RedisDB)
    (pattern : String) : Except PyErr (List String) :=
  mapExcept pySplitDotIdx1 (db.keysCmd (self.h_index ++ pattern))

/-- Model of `bulk` on a `RedisStorage` instance: not overridden, so the
call reaches `BaseStorage.bulk` (lines 59-60), which raises
`NotImplementedError`. -/
def RedisStorage.bulk (_self : RedisStorage) (_data : List PyVal) :
    Except PyErr Unit :=
  .error .notImplementedError

/-! ## ElasticSearchStorage (storage.py lines 109-159)

The external Elasticsearch index is modelled by `EsIndex`, a list of
documents.  `append_val` serializes the document body with `json.dumps`
(line 135), so the stored `val` and `extra` fields are `JVal`s; the
`match` query issued by `get_list` is modelled as equality on the `key`
field (the hash keys this layer stores are single terms, for which the
match query returns exactly the documents with that key). -/

/-- One document in the Elasticsearch index: the `key`, `val` and
`extra` fields of the body built in `append_val` (lines 130-134), after
the `json.dumps` of line 135. -/
structure EsDoc where
  key : String
  val : JVal
  extra : JVal

/-- State of the external Elasticsearch index. -/
structure EsIndex where
  docs : List EsDoc

/-- An Elasticsearch index with no documents. -/
def EsIndex.empty : EsIndex := ⟨[]⟩

/-- State of an `ElasticSearchStorage` instance (lines 110-115): the
`index` and `doc_type` names and the optional request timeout read from
the configuration.  The `connections` entry is forwarded to the external
`Elasticsearch` client constructor and is not part of the state. -/
structure ElasticSearchStorage where
  index : String
  doc_type : String
  request_timeout : Option Int

/-- Model of `ElasticSearchStorage.__init__` (lines 110-115): reads the
configuration fields, then calls `Elasticsearch(config['connections'])`.
When the elasticsearch client library failed to import, the module bound
`Elasticsearch = None` (lines 17-21), and calling `None` raises
`TypeError`. -/
def ElasticSearchStorage.init (esAvailable : Bool) (index doc_type : String)
    (request_timeout : Option Int) : Except PyErr ElasticSearchStorage :=
  if esAvailable then .ok ⟨index, doc_type, request_timeout⟩
  else .error .typeError

/-- Model of `ElasticSearchStorage.append_val` (lines 127-135):
`extra = val[-1]` (raises `IndexError` on an empty sequence, `TypeError`
on a non-sequence), `val = tuple(x for i, x in enumerate(val) if i+1 < len(val))`
— every element but the last — and one document with the serialized body
is added to the index. -/
def ElasticSearchStorage.append_val (_self : ElasticSearchStorage)
    (idx : EsIndex) (key : String) (val : PyVal) : Except PyErr EsIndex :=
  match val with
  | .tuple [] => .error .indexError
  | .tuple (x :: xs) =>
    .ok ⟨idx.docs ++ [⟨key, jsonDumps (.tuple (x :: xs).dropLast),
      jsonDumps ((x :: xs).getLast (by simp))⟩]⟩
  | .list [] => .error .indexError
  | .list (x :: xs) =>
    .ok ⟨idx.docs ++ [⟨key, jsonDumps (.tuple (x :: xs).dropLast),
      jsonDumps ((x :: xs).getLast (by simp))⟩]⟩
  | .str s =>
    match s.data with
    | [] => .error .indexError
    | c :: cs =>
      .ok ⟨idx.docs ++ [⟨key,
        jsonDumps (.tuple ((c :: cs).dropLast.map
          (fun ch => PyVal.str (String.mk [ch])))),
        jsonDumps (.str (String.mk [(c :: cs).getLast (by simp)]))⟩]⟩
  | _ => .error .typeError

/-- Reconstruction of one search hit in `ElasticSearchStorage.get_list`
(lines 153-158): decode `val` and `extra`, then
`if extra and type(val[0]) == list: val[0] = tuple(val[0])` and append
`(val[0], extra)`.  When the decoded `val` is empty, `val[0]` raises
`IndexError` — inside the condition if `extra` is truthy, in the appended
tuple otherwise. -/
def esHitToPayload (d : EsDoc) : Except PyErr PyVal :=
  match jsonLoads d.val with
  | .list [] => .error .indexError
  | .list (v0 :: _) =>
    let extra := jsonLoads d.extra
    let v0' := if pyTruthy extra then
        (match v0 with | .list ys => PyVal.tuple ys | _ => v0)
      else v0
    .ok (.tuple [v0', extra])
  | .str s =>
    match s.data with
    | [] => .error .indexError
    | c :: _ => .ok (.tuple [.str (String.mk [c]), jsonLoads d.extra])
  | _ => .error .typeError

/-- Model of `ElasticSearchStorage.get_list` (lines 150-159): a match
query on the `key` field, then each hit is reconstructed in order; the
loop raises at the first bad hit. -/
def ElasticSearchStorage.get_list (_self : ElasticSearchStorage)
    (idx : EsIndex) (key : String) : Except PyErr (List PyVal) :=
  mapExcept esHitToPayload (idx.docs.filter (fun d => d.key == key))

/-! ## The storage factory (storage.py lines 27-35) -/

/-- Configuration mapping handed to the factory: which of the recognized
keys `dict`, `redis`, `es` are present, and the options under `es` that
become part of the constructed instance's state.  The value under `dict`
is passed to a constructor call that fails regardless of it, and the
value under `redis` is forwarded verbatim to the external client, so
neither is modelled beyond its presence. -/
structure StorageConfig where
  dict : Option Unit
  redis : Option Unit
  es : Option ElasticSearchStorage

/-- The configuration mapping with no recognized key (in particular the
empty mapping). -/
def StorageConfig.empty : StorageConfig := ⟨none, none, none⟩

/-- A constructed backend instance: the result type of the factory. -/
inductive Backend where
  | inMemory : InMemoryStorage → Backend
  | redis : RedisStorage → Backend
  | es : ElasticSearchStorage → Backend

/-- Model of the factory `storage(storage_config, index)` (lines 27-35).
The branch order is the source's if/elif chain: `dict` first, then
`redis`, then `es`, else `raise ValueError(...)`.  In the `dict` branch
the source calls `InMemoryStorage(storage_config['dict'])`, but
`InMemoryStorage.__init__` is `def __init__(self)` and accepts no
argument, so that call raises `TypeError` for every configuration value.
Availability of the two client libraries (bound to `None` by the guarded
imports at lines 11-21 when missing) is passed explicitly. -/
def storage (redisAvailable esAvailable : Bool) (cfg : StorageConfig)
    (index : Int) : Except PyErr Backend :=
  match cfg.dict with
  | some _ => .error .typeError
  | none =>
    match cfg.redis with
    | some _ => (RedisStorage.init redisAvailable index).map Backend.redis
    | none =>
      match cfg.es with
      | some ec =>
        (ElasticSearchStorage.init esAvailable ec.index ec.doc_type
          ec.request_timeout).map Backend.es
      | none => .error .valueError

/-- Modelled from the spec: the error-taxonomy name `ConfigurationError`
covers "no recognized backend key, or required client unavailable".  In
the source these failures surface as the `ValueError` raised by the
factory's else branch, the `ImportError` raised by
`RedisStorage.__init__` when the redis client library is missing, and
the `TypeError` raised in `ElasticSearchStorage.__init__` when the
elasticsearch client library is missing. -/
def ConfigurationError (e : PyErr) : Prop :=
  e = .valueError ∨ e = .importError ∨ e = .typeError

/-- Modelled from the spec: the error-taxonomy name `NotSupported` is the
failure of `bulk` on backends without a batch path; in the source it is
the `NotImplementedError` raised by `BaseStorage.bulk`, which
`InMemoryStorage` and `RedisStorage` do not override. -/
def NotSupported (e : PyErr) : Prop :=
  e = .notImplementedError

/-! ## Sample instances and payloads used by the claims -/

/-- The KeySet backend instance for table index 1 (its namespace string
is `mkHIndex 1 = "h01."`). -/
def redisTable1 : RedisStorage := ⟨mkHIndex 1⟩

/-- The KeySet backend instance for table index 2 (its namespace string
is `mkHIndex 2 = "h02."`). -/
def redisTable2 : RedisStorage := ⟨mkHIndex 2⟩

/-- A DocumentSearch backend instance (index and doc_type names play no
role in the modelled behaviour). -/
def esInstance : ElasticSearchStorage := ⟨"lshash", "lshash", none⟩

/-- The nested payload `(("x","y"), 5)` of the round-trip claim. -/
def pXY5 : PyVal := .tuple [.tuple [.str "x", .str "y"], .int 5]

/-- The payload `("v1","v2")` of the in-memory scenario. -/
def pV12 : PyVal := .tuple [.str "v1", .str "v2"]

/-- A sample payload, distinct from `pTwo`. -/
def pOne : PyVal := .tuple [.int 1]

/-- A sample payload, distinct from `pOne`. -/
def pTwo : PyVal := .tuple [.int 2]

/-! ## Helper lemmas -/

/-- Rebuilding a string from its characters is the identity. -/
theorem mk_data (s : String) : String.mk s.data = s := by cases s; rfl

/-- Physical keys of tables 1 and 2 never collide, whatever the hash
keys are: the namespace strings differ at their third character. -/
theorem h01_ne_h02 (k k' : String) : ("h01." ++ k) ≠ ("h02." ++ k') := by
  intro h
  have hd : ('h' :: '0' :: '1' :: '.' :: k.data) =
      ('h' :: '0' :: '2' :: '.' :: k'.data) := congrArg String.data h
  simp at hd

/-- `SADD` under one key leaves the members stored under every other key
unchanged. -/
theorem lookup_saddList_ne (l : List (String × List JVal)) (k k' : String)
    (v : JVal) (h : k' ≠ k) :
    (saddList l k v).lookup k' = l.lookup k' := by
  have hb : (k' == k) = false := beq_eq_false_iff_ne.mpr h
  induction l with
  | nil => simp [saddList, List.lookup, hb]
  | cons p rest ih =>
    obtain ⟨pk, pvs⟩ := p
    by_cases hp : pk = k
    · subst hp
      simp [saddList, List.lookup, hb]
    · simp [saddList, hp, List.lookup, ih]

/-- `SMEMBERS` of a key other than the one just `SADD`-ed is
unchanged. -/
theorem smembers_sadd_ne (db : RedisDB) (k k' : String) (v : JVal)
    (h : k' ≠ k) : (db.sadd k v).smembers k' = db.smembers k' := by
  unfold RedisDB.sadd RedisDB.smembers
  rw [lookup_saddList_ne _ _ _ _ h]

/-- `get_list` through a `RedisStorage` instance is unchanged by an
`SADD` on a physical key other than the one the instance reads. -/
theorem get_list_sadd_ne (st : RedisStorage) (db : RedisDB)
    (pk k' : String) (v : JVal) (h : st._list k' ≠ pk) :
    st.get_list (db.sadd pk v) k' = st.get_list db k' := by
  unfold RedisStorage.get_list
  rw [smembers_sadd_ne _ _ _ _ h]

/-- The key listing (map `fst`, filter by glob) is unchanged by an
`SADD` whose physical key fails the glob. -/
theorem filter_map_fst_saddList (l : List (String × List JVal)) (k : String)
    (v : JVal) (p : String → Bool) (h : p k = false) :
    ((saddList l k v).map Prod.fst).filter p = (l.map Prod.fst).filter p := by
  induction l with
  | nil => simp [saddList, h]
  | cons q rest ih =>
    obtain ⟨qk, qvs⟩ := q
    by_cases hq : qk = k
    · subst hq
      simp [saddList]
    · simp only [saddList, hq, if_false, List.map_cons, List.filter_cons, ih]

/-- `keys` through a `RedisStorage` instance is unchanged by an `SADD`
whose physical key does not match the instance's pattern. -/
theorem keys_sadd_ne (st : RedisStorage) (db : RedisDB) (pk : String)
    (v : JVal) (pat : String)
    (h : globMatch (st.h_index ++ pat).data pk.data = false) :
    st.keys (db.sadd pk v) pat = st.keys db pat := by
  unfold RedisStorage.keys RedisDB.keysCmd RedisDB.sadd
  rw [filter_map_fst_saddList _ _ _ _ h]

/-- The pattern `*` matches every string. -/
theorem globMatch_star (s : List Char) : globMatch ['*'] s = true := by
  simp [globMatch]
  exact ⟨s.length, by simp, by simp⟩

/-- The pattern `h01.*` matches every string beginning `h01.`. -/
theorem globMatch_h01star (s : List Char) :
    globMatch ['h', '0', '1', '.', '*'] ('h' :: '0' :: '1' :: '.' :: s) = true := by
  show globMatch ['*'] s = true
  exact globMatch_star s

/-- The pattern `h02.*` matches no string beginning `h01.`. -/
theorem globMatch_h02star_h01 (s : List Char) :
    globMatch ['h', '0', '2', '.', '*'] ('h' :: '0' :: '1' :: '.' :: s) = false := rfl

/-- The pattern `h01.*` matches no string beginning `h02.`. -/
theorem globMatch_h01star_h02 (s : List Char) :
    globMatch ['h', '0', '1', '.', '*'] ('h' :: '0' :: '2' :: '.' :: s) = false := rfl

/-- Splitting a dot-free string on `.` yields the whole string as the
single piece. -/
theorem splitDot_no_dot (s : List Char) (h : '.' ∉ s) : splitDot s = [s] := by
  induction s with
  | nil => rfl
  | cons c rest ih =>
    have hc : ¬(c = '.') := fun hh => h (hh ▸ List.mem_cons_self c rest)
    have hr : '.' ∉ rest := fun hm => h (List.mem_cons_of_mem c hm)
    simp [splitDot, ih hr, hc]

/-- After a single `append_val` of a dot-free hash key on table 1,
`keys()` returns exactly that hash key with the namespace stripped. -/
theorem keys_strips (k : String) (v : PyVal) (h : '.' ∉ k.data) :
    redisTable1.keys (redisTable1.append_val RedisDB.empty k v) "*" =
      .ok [k] := by
  show mapExcept pySplitDotIdx1
      (RedisDB.keysCmd ⟨[("h01." ++ k, [jsonDumps v])]⟩ ("h01." ++ "*")) = .ok [k]
  have hfilter : RedisDB.keysCmd ⟨[("h01." ++ k, [jsonDumps v])]⟩ ("h01." ++ "*")
      = ["h01." ++ k] := by
    simp [RedisDB.keysCmd, List.filter_cons, globMatch_h01star]
  rw [hfilter]
  have h1 : pySplitDotIdx1 ("h01." ++ k) = .ok k := by
    unfold pySplitDotIdx1
    rw [show ("h01." ++ k).data = 'h' :: '0' :: '1' :: '.' :: k.data from rfl]
    rw [show splitDot ('h' :: '0' :: '1' :: '.' :: k.data)
        = [['h', '0', '1'], k.data] from by
      simp [splitDot, splitDot_no_dot k.data h]]
    simp [mk_data]
  simp only [mapExcept, h1]
  rfl

/-! ## Claim theorems -/

/-- C1: the claim says that for every backend, `append_val` never
discards a previously stored distinct payload.  The in-memory backend
violates this: as written, every `append_val` call raises `NameError`
(first conjunct, the faithful model), and under the intended reading of
line 72 (`InMemoryTable`) a payload stored under key `a` is present
until a distinct payload is appended under key `b`, after which
`get_list "a"` returns `[]` — the stored payload is discarded (second
and third conjuncts). -/
theorem claim_C1_inmemory_append_discards :
    InMemoryStorage.init.append_val "a" pOne = .error .nameError ∧
    (InMemoryTable.empty.append_val "a" pOne).get_list "a" = [pOne] ∧
    ((InMemoryTable.empty.append_val "a" pOne).append_val "b" pTwo).get_list
      "a" = [] ∧
    pOne ≠ pTwo :=
  ⟨rfl, rfl, rfl, by simp [pOne, pTwo]⟩

/-- C2: the claim says every backend returns `[]` from `get_list` on a
key never appended to, without error.  The KeySet and DocumentSearch
backends do return `.ok []` on a fresh store (second and third
conjuncts, for every instance and key), but the InMemory backend raises
`NameError` instead (first conjunct): the bare name `index` in line 76
is unbound, contradicting the claim and `BaseStorage.get_list`'s own
docstring. -/
theorem claim_C2_get_list_initially :
    (∀ (m : InMemoryStorage) (k : String),
      m.get_list k = .error .nameError) ∧
    (∀ (st : RedisStorage) (k : String),
      st.get_list RedisDB.empty k = .ok []) ∧
    (∀ (es : ElasticSearchStorage) (k : String),
      es.get_list EsIndex.empty k = .ok []) :=
  ⟨fun _ _ => rfl, fun _ _ => rfl, fun _ _ => rfl⟩

/-- C3: after `append_val(k, (("x","y"), 5))`, `get_list(k)` contains
`(("x","y"), 5)` with the inner tuple restored as a tuple, on both the
KeySet (Redis) backend and the DocumentSearch (Elasticsearch)
backend. -/
theorem claim_C3_nested_roundtrip :
    redisTable1.get_list
        (redisTable1.append_val RedisDB.empty "k" pXY5) "k" = .ok [pXY5] ∧
    (esInstance.append_val EsIndex.empty "k" pXY5).bind
        (fun idx => esInstance.get_list idx "k") = .ok [pXY5] :=
  ⟨rfl, rfl⟩

/-- C4: the claim says appending an identical payload twice leaves
exactly one copy in `get_list` for the InMemory and KeySet backends.
The KeySet backend does deduplicate (first conjunct: two identical
appends leave exactly one copy), but on the InMemory backend even the
first `append_val` — and any `get_list` — raises `NameError` (the bare
name `index` is unbound), so the claimed behaviour is unreachable there
(remaining conjuncts). -/
theorem claim_C4_dedup :
    redisTable1.get_list
        (redisTable1.append_val
          (redisTable1.append_val RedisDB.empty "h1" pV12) "h1" pV12) "h1" =
      .ok [pV12] ∧
    InMemoryStorage.init.append_val "h1" pV12 = .error .nameError ∧
    InMemoryStorage.init.get_list "h1" = .error .nameError :=
  ⟨rfl, rfl, rfl⟩

/-- C5 counterexample: the claim says `keys()` returns the stored
HashKeys with the namespace stripped.  Storing the hash key `a.b` on
table 1 and listing keys returns `a`, not `a.b`: line 93 takes
`split('.')[1]`, the piece between the first and second dot, which is a
proper truncation of any hash key containing a dot. -/
theorem claim_C5_counterexample :
    redisTable1.keys
        (redisTable1.append_val RedisDB.empty "a.b" pOne) "*" = .ok ["a"] ∧
    ("a" : String) ≠ "a.b" :=
  ⟨rfl, by decide⟩

/-- C5 amended: two KeySet backend instances with table indices 1 and 2
over the same physical store never observe each other's buckets — an
`append_val` through one instance changes neither `get_list` (for any
key) nor `keys()` as seen through the other — and `keys()` returns
stored HashKeys with the internal namespace stripped provided the
HashKey contains no `.` character. -/
theorem claim_C5_namespacing_amended :
    (∀ (db : RedisDB) (k k' : String) (v : PyVal),
      redisTable2.get_list (redisTable1.append_val db k v) k' =
        redisTable2.get_list db k' ∧
      redisTable1.get_list (redisTable2.append_val db k v) k' =
        redisTable1.get_list db k' ∧
      redisTable2.keys (redisTable1.append_val db k v) "*" =
        redisTable2.keys db "*" ∧
      redisTable1.keys (redisTable2.append_val db k v) "*" =
        redisTable1.keys db "*") ∧
    (∀ (k : String) (v : PyVal), '.' ∉ k.data →
      redisTable1.keys (redisTable1.append_val RedisDB.empty k v) "*" =
        .ok [k]) := by
  constructor
  · intro db k k' v
    refine ⟨?_, ?_, ?_, ?_⟩
    · exact get_list_sadd_ne redisTable2 db _ k' _ (Ne.symm (h01_ne_h02 k k'))
    · exact get_list_sadd_ne redisTable1 db _ k' _ (h01_ne_h02 k' k)
    · exact keys_sadd_ne redisTable2 db _ _ "*" (globMatch_h02star_h01 k.data)
    · exact keys_sadd_ne redisTable1 db _ _ "*" (globMatch_h01star_h02 k.data)
  · intro k v h
    exact keys_strips k v h

/-- Witness for C5 amended: at the concrete dot-free hash key `foo`,
storing a payload on table 1 and listing keys returns exactly `foo`. -/
theorem claim_C5_namespacing_amended_witness :
    redisTable1.keys (redisTable1.append_val RedisDB.empty "foo" pOne) "*" =
      .ok ["foo"] :=
  claim_C5_namespacing_amended.2 "foo" pOne (by decide)

/-- C6: the factory fails for every index when the configuration holds
no recognized key (the `ValueError` of line 35), fails with
`ImportError` when the `redis` key is present but the redis client
library is unavailable (lines 81-82), and fails with `TypeError` when
the `es` key is present but the elasticsearch client library is
unavailable (`Elasticsearch` is `None`, line 115); each of these errors
is what the spec's taxonomy calls `ConfigurationError`. -/
theorem claim_C6_configuration_errors :
    ∀ (ra ea : Bool) (i : Int) (ec : ElasticSearchStorage),
      (storage ra ea StorageConfig.empty i = .error .valueError ∧
        ConfigurationError .valueError) ∧
      (storage false ea ⟨none, some (), none⟩ i = .error .importError ∧
        ConfigurationError .importError) ∧
      (storage ra false ⟨none, none, some ec⟩ i = .error .typeError ∧
        ConfigurationError .typeError) :=
  fun _ _ _ _ =>
    ⟨⟨rfl, Or.inl rfl⟩, ⟨rfl, Or.inr (Or.inl rfl)⟩, ⟨rfl, Or.inr (Or.inr rfl)⟩⟩

/-- C7: the claim says `storage(config, 1)` with the `dict` key returns
a working InMemory backend whose `append_val`/`get_list` round-trips.
In the code the factory's dict branch calls
`InMemoryStorage(storage_config['dict'])`, but `InMemoryStorage.__init__`
accepts no argument beside `self`, so the call raises `TypeError` for
every index and regardless of client-library availability. -/
theorem claim_C7_dict_scenario :
    ∀ (ra ea : Bool) (i : Int),
      storage ra ea ⟨some (), none, none⟩ i = .error .typeError :=
  fun _ _ _ => rfl

/-- C8: `bulk(data)` on the InMemory and KeySet backends fails for every
input: neither class overrides `bulk`, so the call reaches
`BaseStorage.bulk`, which raises `NotImplementedError` — the error the
spec's taxonomy calls `NotSupported`. -/
theorem claim_C8_bulk_not_supported :
    ∀ (m : InMemoryStorage) (r : RedisStorage) (d : List PyVal),
      m.bulk d = .error .notImplementedError ∧
      r.bulk d = .error .notImplementedError ∧
      NotSupported .notImplementedError :=
  fun _ _ _ => ⟨rfl, rfl, rfl⟩

/-- C9: the claim says backend selection is the fixed precedence
`dict` over `redis` over `es`, deterministic and without error.  The
precedence is real — a configuration holding all three keys
deterministically enters the dict branch, and `redis` is chosen over
`es` and constructs a Redis instance without error — but the dict
branch itself raises `TypeError` (the `InMemoryStorage` constructor
accepts no configuration argument), so "without error" fails whenever
`dict` is present. -/
theorem claim_C9_precedence :
    ∀ (ra ea : Bool) (i : Int) (ec : ElasticSearchStorage),
      storage ra ea ⟨some (), some (), some ec⟩ i = .error .typeError ∧
      storage true ea ⟨none, some (), some ec⟩ i =
        .ok (.redis ⟨mkHIndex i⟩) :=
  fun _ _ _ _ => ⟨rfl, rfl⟩

/-- C10: on the DocumentSearch backend, `append_val` of a single-element
payload `(v,)` stores the sole element as `extra` and the empty tuple as
`val` (first conjunct), and the subsequent `get_list` on that key reads
`val[0]` from the empty stored `val` and raises `IndexError` instead of
returning the payload (second conjunct) — for every element `v`. -/
theorem claim_C10_es_single_element :
    ∀ (v : PyVal),
      esInstance.append_val EsIndex.empty "h1" (.tuple [v]) =
        .ok ⟨[⟨"h1", .arr [], jsonDumps v⟩]⟩ ∧
      (esInstance.append_val EsIndex.empty "h1" (.tuple [v])).bind
        (fun idx => esInstance.get_list idx "h1") = .error .indexError :=
  fun _ => ⟨rfl, rfl⟩

end LSHash
